import Mathlib

/-
Shallow embedding of src/lambda_function.py (lambda-code-watcher).

The program backs up AWS Lambda deployment packages to S3.  Python values
that flow through the JSON-handling parts of the code are modelled by the
inductive type JVal; Python dicts are association lists; AWS/boto3 calls
are modelled by an explicit S3 store state plus an environment of injected
responses (registry lookups, package downloads, and per-key fault
injection for the S3 API).  Exceptions are modelled with Except; the
botocore ClientError carries the error code inspected by the source.
The external json library (json.dumps followed by json.loads) is modelled
as storing the structured value itself: an S3 body is either the JSON
value that was serialized into it or raw zip bytes.

Every definition is translated from src/lambda_function.py; line numbers
are given in the doc comments.
-/

/-- JSON-representable Python values (dict, list, str, int, bool, None). -/
inductive JVal where
  | jnull
  | jbool (b : Bool)
  | jnum (n : Int)
  | jstr (s : String)
  | jarr (xs : List JVal)
  | jobj (kvs : List (String × JVal))

/-- Python dict.get: first binding of the key in the association list,
absent keys give None (here: none). -/
def dictGet (d : List (String × JVal)) (k : String) : Option JVal :=
  match d with
  | [] => none
  | (k1, v) :: t => if k1 = k then some v else dictGet t k

/-- Python truthiness of a JSON-representable value: None, False, 0, empty
string, empty list and empty dict are falsy. -/
def pyTruthy : JVal → Bool
  | .jnull => false
  | .jbool b => b
  | .jnum n => n != 0
  | .jstr s => s != ""
  | .jarr xs => !xs.isEmpty
  | .jobj kvs => !kvs.isEmpty

/-- Python truthiness of an optional string (a value that is either absent,
i.e. None, or a str): None and the empty string are falsy. -/
def pyTruthyStrOpt : Option String → Bool
  | none => false
  | some s => s != ""

/-- Configuration read from environment variables (source lines 33-40).
destRoot models the artifact namespace setting (DEST_PREFIX in the source)
and stateRoot the state namespace setting (STATE_PREFIX in the source). -/
structure Config where
  DEST_BUCKET : String
  destRoot : String
  stateRoot : String
  TARGETS_FROM_ENV : List String

/-- TARGETS_FROM_ENV derivation from the two environment variables
TARGET_FUNCTION and TARGET_FUNCTIONS (source line 40): join with a comma,
split on commas, strip whitespace, keep the non-empty pieces. -/
def targets_from_env (tf tfs : String) : List String :=
  ((tf ++ "," ++ tfs).splitOn ",").filterMap fun s =>
    if s.trim = "" then none else some s.trim

/-- State-record storage key (source lines 57-58): STATE_PREFIX/{fn}.json. -/
def state_key (cfg : Config) (function_name : String) : String :=
  cfg.stateRoot ++ "/" ++ function_name ++ ".json"

/-- Artifact storage key (source line 110): DEST_PREFIX/{fn}.zip. -/
def artifact_key (cfg : Config) (function_name : String) : String :=
  cfg.destRoot ++ "/" ++ function_name ++ ".zip"

/-- Python target.rsplit(":", 1)[-1] (source lines 137, 144, 146): the
substring after the last colon, the whole string when there is no colon. -/
def shortName (t : String) : String :=
  String.mk ((t.data.reverse.takeWhile fun c => c != ':').reverse)

/-- botocore ClientError: e.response.get("Error", \x7b\x7d).get("Code") may be
absent, hence an optional code string, plus the str(e) message. -/
structure ClientError where
  code : Option String
  msg : String
deriving DecidableEq

/-- Python exceptions raised by the program or its collaborators. -/
inductive PyErr where
  | clientError (e : ClientError)
  | runtimeError (msg : String)
  | urlError (msg : String)
  | valueError (msg : String)
  | attributeError (msg : String)
deriving DecidableEq

/-- Python str(e), used for the per-target error entries (source line 199). -/
def pyErrStr : PyErr → String
  | .clientError e => e.msg
  | .runtimeError m => m
  | .urlError m => m
  | .valueError m => m
  | .attributeError m => m

/-- Raw package bytes. -/
abbrev Bytes := List Nat

/-- Body of a stored S3 object: either the JSON value a state record was
serialized from (json.dumps on write, json.loads on read, modelled as an
inverse pair since both belong to the external json library), or zip
bytes of a backup artifact. -/
inductive S3Body where
  | jsonBody (j : JVal)
  | zipBody (b : Bytes)

/-- Data supplied by a put_object call. -/
structure ObjData where
  body : S3Body
  contentType : String
  metadata : List (String × Option String)

/-- A stored object version together with the version id the store
assigned to it (absent when versioning is disabled). -/
structure StoredObj where
  data : ObjData
  versionId : Option String

/-- The destination S3 bucket: versioning flag, per-key version stacks
(newest first), and a counter for fresh version ids. -/
structure S3Store where
  versioningEnabled : Bool
  nextVersionId : Nat
  objects : List (String × List StoredObj)

/-- Association-list lookup keyed by the first matching entry. -/
def lookupKey {α : Type} (l : List (String × α)) (k : String) : Option α :=
  match l with
  | [] => none
  | (k1, v) :: t => if k1 = k then some v else lookupKey t k

/-- Effect trace of the pipeline: the state-record read, the package
download, the artifact upload and the state-record write calls, recorded
at the moment each call is made. -/
inductive Eff where
  | loadState (key : String)
  | download (url : String)
  | uploadZip (key : String)
  | saveState (key : String)
deriving DecidableEq

/-- Package descriptor built by fetch_lambda_package_info (source lines
85-99): each field comes from a dict .get and may be absent; the registry
reports string values. -/
structure PackageInfo where
  function_arn : Option String
  version : Option String
  last_modified : Option String
  code_sha : Option String
  code_url : Option String

/-- External collaborators: the Lambda registry response for get_function
(already projected onto the five fields the source extracts, lines 85-99),
the urllib download of a package URL (Except message bytes), per-key
injected ClientError faults for S3 get_object / put_object / head_object,
and injected faults for the bucket-versioning calls. -/
structure Env where
  registry : String → Except PyErr PackageInfo
  download : String → Except String Bytes
  getF : String → Option ClientError
  putF : String → Option ClientError
  headF : String → Option ClientError
  vGetF : Option ClientError
  vPutF : Option ClientError

/-- s3.get_object (source line 67): injected fault first, else the current
version stored under the key, else a NoSuchKey ClientError. -/
def s3_get_object (env : Env) (w : S3Store) (key : String) : Except ClientError StoredObj :=
  match env.getF key with
  | some e => .error e
  | none =>
    match lookupKey w.objects key with
    | some (o :: _) => .ok o
    | _ => .error { code := some "NoSuchKey", msg := "NoSuchKey: " ++ key }

/-- Unconditional store update of a put_object call: assign a fresh version
id when versioning is enabled, push the new version (keeping history only
when versioning is enabled). -/
def s3_put_raw (w : S3Store) (key : String) (d : ObjData) : S3Store :=
  let vid : Option String :=
    if w.versioningEnabled then some ("v" ++ toString w.nextVersionId) else none
  let prev : List StoredObj := (lookupKey w.objects key).getD []
  let vs : List StoredObj :=
    if w.versioningEnabled then { data := d, versionId := vid } :: prev
    else [{ data := d, versionId := vid }]
  { versioningEnabled := w.versioningEnabled
    nextVersionId := w.nextVersionId + 1
    objects := (key, vs) :: w.objects }

/-- s3.put_object (source lines 78-83 and 111-122): injected fault first,
else write the object. -/
def s3_put_object (env : Env) (w : S3Store) (key : String) (d : ObjData) :
    Except ClientError S3Store :=
  match env.putF key with
  | some e => .error e
  | none => .ok (s3_put_raw w key d)

/-- s3.head_object (source line 124): injected fault first, else the
VersionId of the current version under the key (absent when versioning is
off), else a 404 ClientError. -/
def s3_head_object (env : Env) (w : S3Store) (key : String) : Except ClientError (Option String) :=
  match env.headF key with
  | some e => .error e
  | none =>
    match lookupKey w.objects key with
    | some (o :: _) => .ok o.versionId
    | _ => .error { code := some "404", msg := "Not Found: " ++ key }

/-- load_last_state (source lines 60-74): read the state record at the
derived key; treat the ClientError codes NoSuchKey, 404 and AccessDenied
as "no prior state" (ok none); re-raise any other ClientError.  A stored
body that is not JSON makes json.loads raise (a ValueError). -/
def load_last_state (cfg : Config) (env : Env) (w : S3Store) (function_name : String) :
    Except PyErr (Option JVal) :=
  match s3_get_object env w (state_key cfg function_name) with
  | .ok obj =>
    match obj.data.body with
    | .jsonBody j => .ok (some j)
    | .zipBody _ => .error (.valueError "json decode failed")
  | .error e =>
    if e.code = some "NoSuchKey" ∨ e.code = some "404" ∨ e.code = some "AccessDenied" then
      .ok none
    else
      .error (.clientError e)

/-- save_state (source lines 76-83): put the serialized record at the
derived key with content type application/json; a put fault is a
ClientError that propagates. -/
def save_state (cfg : Config) (env : Env) (w : S3Store) (function_name : String) (st : JVal) :
    Except PyErr Unit × S3Store × List Eff :=
  match s3_put_object env w (state_key cfg function_name)
      { body := .jsonBody st, contentType := "application/json", metadata := [] } with
  | .error e => (.error (.clientError e), w, [.saveState (state_key cfg function_name)])
  | .ok w1 => (.ok (), w1, [.saveState (state_key cfg function_name)])

/-- fetch_lambda_package_info (source lines 85-99): lambda_client
get_function, with the five extracted fields supplied by the environment;
a registry failure propagates. -/
def fetch_lambda_package_info (env : Env) (function_name : String) : Except PyErr PackageInfo :=
  env.registry function_name

/-- download_bytes (source lines 101-103): urllib.request.urlopen with a
60 second timeout; any failure propagates as a URLError. -/
def download_bytes (env : Env) (url : String) : Except PyErr Bytes :=
  match env.download url with
  | .ok b => .ok b
  | .error m => .error (.urlError m)

/-- Result of upload_zip (source line 125). -/
structure UploadInfo where
  bucket : String
  key : String
  version_id : Option String

/-- Object metadata attached by upload_zip (source lines 116-121): the
dict.get calls hit present keys whose values may be None. -/
def zipMetadata (info : PackageInfo) : List (String × Option String) :=
  [("function_arn", info.function_arn),
   ("lambda_version", info.version),
   ("last_modified", info.last_modified),
   ("code_sha", info.code_sha)]

/-- upload_zip (source lines 105-125): put the zip bytes at the stable
artifact key with content type application/zip and descriptor metadata,
then head_object for the store-assigned version id. -/
def upload_zip (cfg : Config) (env : Env) (w : S3Store) (function_name : String)
    (zip_bytes : Bytes) (info : PackageInfo) :
    Except PyErr UploadInfo × S3Store × List Eff :=
  match s3_put_object env w (artifact_key cfg function_name)
      { body := .zipBody zip_bytes, contentType := "application/zip", metadata := zipMetadata info } with
  | .error e => (.error (.clientError e), w, [.uploadZip (artifact_key cfg function_name)])
  | .ok w1 =>
    match s3_head_object env w1 (artifact_key cfg function_name) with
    | .error e => (.error (.clientError e), w1, [.uploadZip (artifact_key cfg function_name)])
    | .ok vid =>
      (.ok { bucket := cfg.DEST_BUCKET, key := artifact_key cfg function_name, version_id := vid },
       w1, [.uploadZip (artifact_key cfg function_name)])

/-- compare_sha (source lines 127-129): not last_state or
last_state.get("code_sha") != current_sha.  The Python value returned by
json.loads need not be a dict: a truthy non-dict raises AttributeError at
the .get call; a falsy value short-circuits to True.  Comparison with the
current sha (a str) is equality only for an equal stored string. -/
def compare_sha (last_state : Option JVal) (current_sha : String) : Except PyErr Bool :=
  match last_state with
  | none => .ok true
  | some v =>
    if pyTruthy v = false then .ok true
    else
      match v with
      | .jobj d =>
        .ok (match dictGet d "code_sha" with
             | some (.jstr x) => decide (x ≠ current_sha)
             | _ => true)
      | _ => .error (.attributeError "get")

/-- RuntimeError message of the invalid-descriptor check (source line 135). -/
def missingMsg (target : String) : String :=
  "Missing code info for " ++ target

/-- Per-target result entry payload: the dict shapes returned by
process_function and the error entry built by lambda_handler. -/
inductive Outcome where
  | unchanged
  | changed (s3 : UploadInfo) (code_sha : String)
  | error (msg : String)

/-- One element of the results list (source lines 140, 157-162, 199). -/
structure ResultEntry where
  function : JVal
  outcome : Outcome

/-- State record written after a successful upload (source lines 146-152). -/
def optStr : Option String → JVal
  | none => .jnull
  | some s => .jstr s

/-- The JSON record saved by process_function (source lines 146-152). -/
def stateRecord (code_sha : String) (info : PackageInfo) (ui : UploadInfo) : JVal :=
  .jobj [("code_sha", .jstr code_sha),
         ("last_modified", optStr info.last_modified),
         ("s3_bucket", .jstr ui.bucket),
         ("s3_key", .jstr ui.key),
         ("s3_version_id", optStr ui.version_id)]

/-- process_function (source lines 131-162): fetch the descriptor, abort
on a falsy code sha or code url, load prior state keyed by the short name,
compare, stop with an unchanged entry when the sha matches, otherwise
download, upload to the stable key, save the new state and return the
changed entry.  The returned store reflects all writes made before any
exception; the trace records the calls in order. -/
def process_function (cfg : Config) (env : Env) (w : S3Store) (target : String) :
    Except PyErr ResultEntry × S3Store × List Eff :=
  match fetch_lambda_package_info env target with
  | .error e => (.error e, w, [])
  | .ok info =>
    if !pyTruthyStrOpt info.code_sha || !pyTruthyStrOpt info.code_url then
      (.error (.runtimeError (missingMsg target)), w, [])
    else
      match load_last_state cfg env w (shortName target) with
      | .error e => (.error e, w, [.loadState (state_key cfg (shortName target))])
      | .ok last_state =>
        match compare_sha last_state (info.code_sha.getD "") with
        | .error e => (.error e, w, [.loadState (state_key cfg (shortName target))])
        | .ok changed =>
          if !changed then
            (.ok { function := .jstr target, outcome := .unchanged }, w,
             [.loadState (state_key cfg (shortName target))])
          else
            match download_bytes env (info.code_url.getD "") with
            | .error e =>
              (.error e, w,
               [.loadState (state_key cfg (shortName target)), .download (info.code_url.getD "")])
            | .ok blob =>
              match (upload_zip cfg env w (shortName target) blob info).1 with
              | .error e =>
                (.error e, (upload_zip cfg env w (shortName target) blob info).2.1,
                 .loadState (state_key cfg (shortName target)) :: .download (info.code_url.getD "") ::
                   (upload_zip cfg env w (shortName target) blob info).2.2)
              | .ok ui =>
                match (save_state cfg env (upload_zip cfg env w (shortName target) blob info).2.1
                    (shortName target) (stateRecord (info.code_sha.getD "") info ui)).1 with
                | .error e =>
                  (.error e,
                   (save_state cfg env (upload_zip cfg env w (shortName target) blob info).2.1
                     (shortName target) (stateRecord (info.code_sha.getD "") info ui)).2.1,
                   .loadState (state_key cfg (shortName target)) :: .download (info.code_url.getD "") ::
                     ((upload_zip cfg env w (shortName target) blob info).2.2 ++
                      (save_state cfg env (upload_zip cfg env w (shortName target) blob info).2.1
                        (shortName target) (stateRecord (info.code_sha.getD "") info ui)).2.2))
                | .ok _ =>
                  (.ok { function := .jstr target, outcome := .changed ui (info.code_sha.getD "") },
                   (save_state cfg env (upload_zip cfg env w (shortName target) blob info).2.1
                     (shortName target) (stateRecord (info.code_sha.getD "") info ui)).2.1,
                   .loadState (state_key cfg (shortName target)) :: .download (info.code_url.getD "") ::
                     ((upload_zip cfg env w (shortName target) blob info).2.2 ++
                      (save_state cfg env (upload_zip cfg env w (shortName target) blob info).2.1
                        (shortName target) (stateRecord (info.code_sha.getD "") info ui)).2.2))

/-- function_name_from_event (source lines 164-177): recognize the
CloudTrail-via-EventBridge shape and return whatever requestParameters
carries under functionName; every parsing failure (missing field, wrong
shape, AttributeError on a non-dict) is swallowed and yields None. -/
def function_name_from_event (event : List (String × JVal)) : Option JVal :=
  match dictGet event "detail-type" with
  | some (.jstr dt) =>
    if dt = "AWS API Call via CloudTrail" then
      match dictGet event "detail" with
      | some (.jobj det) =>
        (match dictGet det "eventSource" with
         | some (.jstr es) =>
           if es = "lambda.amazonaws.com" then
             match dictGet det "requestParameters" with
             | some (.jobj rp) => dictGet rp "functionName"
             | some _ => none
             | none => none
           else none
         | _ => none)
      | some _ => none
      | none => none
    else none
  | _ => none

/-- RuntimeError message of the no-targets failure (source line 191). -/
def noTargetsMsg : String :=
  "No target functions provided. Set TARGET_FUNCTION(S) or invoke via EventBridge (CloudTrail event)."

/-- Static fallback of target resolution (source lines 187-191): the env
list verbatim when non-empty, else the fatal RuntimeError. -/
def resolveStatic (cfg : Config) : Except PyErr (List JVal) :=
  match cfg.TARGETS_FROM_ENV with
  | [] => .error (.runtimeError noTargetsMsg)
  | ts => .ok (ts.map .jstr)

/-- Target resolution (source lines 183-191): a truthy event-derived value
is the single target; otherwise the static list; otherwise the fatal
no-targets error. -/
def resolve_targets (cfg : Config) (event : List (String × JVal)) : Except PyErr (List JVal) :=
  match function_name_from_event event with
  | some v => if pyTruthy v then .ok [v] else resolveStatic cfg
  | none => resolveStatic cfg

/-- s3.get_bucket_versioning (source line 46): injected fault first, else
the Status field, present exactly when versioning is enabled. -/
def get_bucket_versioning (env : Env) (w : S3Store) : Except ClientError (Option String) :=
  match env.vGetF with
  | some e => .error e
  | none => .ok (if w.versioningEnabled then some "Enabled" else none)

/-- s3.put_bucket_versioning (source lines 49-52): injected fault first,
else enable versioning. -/
def put_bucket_versioning (env : Env) (w : S3Store) : Except ClientError S3Store :=
  match env.vPutF with
  | some e => .error e
  | none => .ok { w with versioningEnabled := true }

/-- ensure_bucket_versioning (source lines 43-55): query the status and
enable only when not already Enabled; any ClientError propagates. -/
def ensure_bucket_versioning (env : Env) (w : S3Store) : Except PyErr S3Store :=
  match get_bucket_versioning env w with
  | .error e => .error (.clientError e)
  | .ok st =>
    if st = some "Enabled" then .ok w
    else
      match put_bucket_versioning env w with
      | .error e => .error (.clientError e)
      | .ok w1 => .ok w1

/-- One step of the per-target loop body on an arbitrary resolved target
value: a string target runs process_function; a non-string target (posible
only via the event path) makes the Python call raise before any effect
(boto parameter validation / missing rsplit attribute), which the loop
catches like any other per-target exception. -/
def processJ (cfg : Config) (env : Env) (w : S3Store) (t : JVal) :
    Except PyErr ResultEntry × S3Store × List Eff :=
  match t with
  | .jstr s => process_function cfg env w s
  | _ => (.error (.attributeError "rsplit"), w, [])

/-- The per-target loop of lambda_handler (source lines 193-199): process
each target in order, converting an exception into an error entry and
continuing with the remaining targets. -/
def run_targets (cfg : Config) (env : Env) : List JVal → S3Store → List ResultEntry × S3Store × List Eff
  | [], w => ([], w, [])
  | t :: ts, w =>
    let step := processJ cfg env w t
    let entry : ResultEntry :=
      match step.1 with
      | .ok e => e
      | .error ex => { function := t, outcome := .error (pyErrStr ex) }
    let rest := run_targets cfg env ts step.2.1
    (entry :: rest.1, rest.2.1, step.2.2 ++ rest.2.2)

/-- Invocation result (source line 201). -/
structure HandlerResult where
  results : List ResultEntry

/-- lambda_handler (source lines 179-201): ensure versioning (fatal on
failure), resolve targets (fatal when none), then run the per-target loop
and return the aggregated results. -/
def lambda_handler (cfg : Config) (env : Env) (w : S3Store) (event : List (String × JVal)) :
    Except PyErr HandlerResult × S3Store × List Eff :=
  match ensure_bucket_versioning env w with
  | .error e => (.error e, w, [])
  | .ok w0 =>
    match resolve_targets cfg event with
    | .error e => (.error e, w0, [])
    | .ok targets =>
      let r := run_targets cfg env targets w0
      (.ok { results := r.1 }, r.2.1, r.2.2)

/-- The entry the loop body produces for target t started in store w. -/
def entryAt (cfg : Config) (env : Env) (w : S3Store) (t : JVal) : ResultEntry :=
  match (processJ cfg env w t).1 with
  | .ok e => e
  | .error ex => { function := t, outcome := .error (pyErrStr ex) }

/-- The store in which the loop starts processing the i-th target. -/
def worldAt (cfg : Config) (env : Env) : List JVal → S3Store → Nat → S3Store
  | _, w, 0 => w
  | [], w, _ + 1 => w
  | t :: ts, w, i + 1 => worldAt cfg env ts (processJ cfg env w t).2.1 i

/-- Concrete configuration (the documented default namespaces) used by the
concrete evaluations below. -/
def cfgW : Config :=
  { DEST_BUCKET := "bkt"
    destRoot := "lambda-code-backups"
    stateRoot := "lambda-code-backups/.state"
    TARGETS_FROM_ENV := [] }

/-- Concrete configuration with a static target list. -/
def cfgW2 : Config :=
  { cfgW with TARGETS_FROM_ENV := ["alpha", "beta"] }

/-- Concrete valid package descriptor. -/
def infoW : PackageInfo :=
  { function_arn := some "arn:aws:lambda:us-east-1:123:function:foo"
    version := some "7"
    last_modified := some "2024-01-01T00:00:00"
    code_sha := some "abc123"
    code_url := some "https://pkg/abc123.zip" }

/-- Concrete descriptor with an empty content hash. -/
def infoBad : PackageInfo :=
  { infoW with code_sha := some "" }

/-- Benign concrete environment: the registry always reports infoW,
downloads succeed, no injected faults. -/
def envW : Env :=
  { registry := fun _ => .ok infoW
    download := fun _ => .ok [80, 75]
    getF := fun _ => none
    putF := fun _ => none
    headF := fun _ => none
    vGetF := none
    vPutF := none }

/-- Concrete environment whose registry reports the invalid descriptor. -/
def envBad : Env :=
  { envW with registry := fun _ => .ok infoBad }

/-- Concrete ClientError with a code outside the suppressed set. -/
def errT : ClientError :=
  { code := some "Throttling", msg := "Rate exceeded" }

/-- Concrete environment in which every S3 read fails with errT. -/
def envW6 : Env :=
  { envW with getF := fun _ => some errT }

/-- Concrete ClientError injected into state writes. -/
def errW : ClientError :=
  { code := some "InternalError", msg := "We encountered an internal error" }

/-- Concrete environment in which writing the state record of foo fails. -/
def envW10 : Env :=
  { envW with putF := fun k => if k = "lambda-code-backups/.state/foo.json" then some errW else none }

/-- Concrete empty versioning-enabled store. -/
def wEmpty : S3Store :=
  { versioningEnabled := true, nextVersionId := 0, objects := [] }

/-- Concrete CloudTrail-shaped event naming the function event-fn. -/
def evW : List (String × JVal) :=
  [("detail-type", .jstr "AWS API Call via CloudTrail"),
   ("detail", .jobj [("eventSource", .jstr "lambda.amazonaws.com"),
                     ("requestParameters", .jobj [("functionName", .jstr "event-fn")])])]

/-- Concrete CloudTrail-shaped event whose functionName is empty. -/
def evW9 : List (String × JVal) :=
  [("detail-type", .jstr "AWS API Call via CloudTrail"),
   ("detail", .jobj [("eventSource", .jstr "lambda.amazonaws.com"),
                     ("requestParameters", .jobj [("functionName", .jstr "")])])]

/-- Concrete configuration with three static targets. -/
def cfgW3 : Config :=
  { cfgW with TARGETS_FROM_ENV := ["alpha", "beta", "gamma"] }

/-- Concrete environment whose registry fails for the target beta only. -/
def envW3 : Env :=
  { envW with registry := fun s =>
      if s = "beta" then .error (.runtimeError "boom") else .ok infoW }

/-
Helper lemmas shared by the claim theorems.
-/

theorem lookupKey_cons_self {α : Type} (l : List (String × α)) (k : String) (v : α) :
    lookupKey ((k, v) :: l) k = some v := by
  simp [lookupKey]

theorem lookupKey_cons_ne {α : Type} (l : List (String × α)) (k k2 : String) (v : α)
    (h : k ≠ k2) : lookupKey ((k, v) :: l) k2 = lookupKey l k2 := by
  simp [lookupKey, h]

theorem lookupKey_put_raw_self (w : S3Store) (key : String) (d : ObjData) :
    lookupKey (s3_put_raw w key d).objects key =
      some ({ data := d,
              versionId := if w.versioningEnabled then some ("v" ++ toString w.nextVersionId) else none } ::
            (if w.versioningEnabled then (lookupKey w.objects key).getD [] else [])) := by
  cases hv : w.versioningEnabled <;> simp [s3_put_raw, lookupKey, hv]

theorem lookupKey_put_raw_ne (w : S3Store) (key k2 : String) (d : ObjData) (h : key ≠ k2) :
    lookupKey (s3_put_raw w key d).objects k2 = lookupKey w.objects k2 := by
  cases hv : w.versioningEnabled <;> simp [s3_put_raw, lookupKey, h]

theorem state_key_ne_artifact_key (cfg cfg2 : Config) (f g : String) :
    state_key cfg f ≠ artifact_key cfg2 g := by
  intro h
  have h2 := congrArg (fun s => s.data.reverse) h
  simp [state_key, artifact_key, String.data_append, List.reverse_append, String.data] at h2

theorem load_put_raw_same (cfg : Config) (env : Env) (w : S3Store) (fn : String) (S : JVal)
    (ct : String) (md : List (String × Option String))
    (hget : env.getF (state_key cfg fn) = none) :
    load_last_state cfg env (s3_put_raw w (state_key cfg fn) { body := .jsonBody S, contentType := ct, metadata := md }) fn =
      .ok (some S) := by
  simp [load_last_state, s3_get_object, hget, lookupKey_put_raw_self]

theorem load_congr (cfg : Config) (env : Env) (w1 w2 : S3Store) (fn : String)
    (h : lookupKey w1.objects (state_key cfg fn) = lookupKey w2.objects (state_key cfg fn)) :
    load_last_state cfg env w1 fn = load_last_state cfg env w2 fn := by
  simp [load_last_state, s3_get_object, h]

theorem compare_sha_jobj (d : List (String × JVal)) (cs : String) :
    compare_sha (some (.jobj d)) cs =
      .ok (match dictGet d "code_sha" with
           | some (.jstr x) => decide (x ≠ cs)
           | _ => true) := by
  cases d with
  | nil => rfl
  | cons h t => simp [compare_sha, pyTruthy]

theorem compare_sha_stateRecord (cs : String) (info : PackageInfo) (ui : UploadInfo) :
    compare_sha (some (stateRecord cs info ui)) cs = .ok false := by
  simp [stateRecord, compare_sha_jobj, dictGet]

theorem pyTruthyStrOpt_some {s : String} (h : s ≠ "") : pyTruthyStrOpt (some s) = true := by
  simp [pyTruthyStrOpt, h]

/-- Claim C1: compare_sha is total on its documented dict-or-None inputs and
returns false exactly when the last state is present and stores a code_sha
equal to the current sha; in every other case (absent state, missing or
different stored hash) it returns true. -/
theorem compare_sha_false_iff_match (ls : Option (List (String × JVal))) (cs : String) :
    (compare_sha (ls.map JVal.jobj) cs = .ok false ↔
      ∃ d, ls = some d ∧ dictGet d "code_sha" = some (.jstr cs)) ∧
    (compare_sha (ls.map JVal.jobj) cs = .ok true ↔
      ¬∃ d, ls = some d ∧ dictGet d "code_sha" = some (.jstr cs)) := by
  cases ls with
  | none => simp [compare_sha]
  | some d =>
    have hm : (some d).map JVal.jobj = some (.jobj d) := rfl
    rw [hm, compare_sha_jobj]
    rcases hg : dictGet d "code_sha" with _ | v
    · simp [hg]
    · cases v <;> simp [hg]

/-- Claim C6: load_last_state returns absent (None) exactly when the S3
read fails with error code NoSuchKey, 404 or AccessDenied; any other read
failure propagates out of load as the ClientError itself rather than
being treated as absent. -/
theorem load_last_state_absent_iff (cfg : Config) (env : Env) (w : S3Store) (fn : String) :
    (load_last_state cfg env w fn = .ok none ↔
      ∃ e, s3_get_object env w (state_key cfg fn) = .error e ∧
        (e.code = some "NoSuchKey" ∨ e.code = some "404" ∨ e.code = some "AccessDenied")) ∧
    (∀ e, s3_get_object env w (state_key cfg fn) = .error e →
      ¬(e.code = some "NoSuchKey" ∨ e.code = some "404" ∨ e.code = some "AccessDenied") →
      load_last_state cfg env w fn = .error (.clientError e)) := by
  unfold load_last_state
  rcases hg : s3_get_object env w (state_key cfg fn) with e | obj
  · by_cases hc : e.code = some "NoSuchKey" ∨ e.code = some "404" ∨ e.code = some "AccessDenied"
    · constructor
      · simp only [if_pos hc]
        exact ⟨fun _ => ⟨e, rfl, hc⟩, fun _ => by trivial⟩
      · intro e2 he2 hnc
        have : e = e2 := by injection he2
        subst this
        exact absurd hc hnc
    · constructor
      · simp only [if_neg hc]
        constructor
        · intro h; exact absurd h (by simp)
        · rintro ⟨e2, he2, hc2⟩
          have : e = e2 := by injection he2
          subst this
          exact absurd hc2 hc
      · intro e2 he2 hnc
        have : e = e2 := by injection he2
        subst this
        simp [if_neg hc]
  · constructor
    · cases hb : obj.data.body <;> simp [hb]
    · intro e2 he2
      exact absurd he2 (by simp)

/-- Concrete runs of the absent-state rule: a read of the empty store
fails with NoSuchKey and load returns absent; an injected Throttling
error propagates as the ClientError. -/
theorem load_last_state_absent_iff_witness :
    load_last_state cfgW envW wEmpty "foo" = .ok none ∧
    load_last_state cfgW envW6 wEmpty "foo" = .error (.clientError errT) := by
  constructor
  · exact (load_last_state_absent_iff cfgW envW wEmpty "foo").1.mpr
      ⟨{ code := some "NoSuchKey", msg := "NoSuchKey: lambda-code-backups/.state/foo.json" },
       rfl, by simp⟩
  · exact (load_last_state_absent_iff cfgW envW6 wEmpty "foo").2 errT rfl (by simp [errT])

/-- Claim C7: a fetched descriptor with an empty content hash or an empty
download locator makes process_function raise the missing-code-info
RuntimeError with an empty effect trace and an unchanged store (no
download, upload or state write was attempted), and the per-target loop
converts it into an error entry instead of silently skipping. -/
theorem invalid_descriptor_aborts (cfg : Config) (env : Env) (w : S3Store) (target : String)
    (info : PackageInfo)
    (hreg : fetch_lambda_package_info env target = .ok info)
    (hbad : info.code_sha = some "" ∨ info.code_url = some "") :
    process_function cfg env w target = (.error (.runtimeError (missingMsg target)), w, []) ∧
    entryAt cfg env w (.jstr target) =
      { function := .jstr target, outcome := .error (missingMsg target) } := by
  have hcond : (!pyTruthyStrOpt info.code_sha || !pyTruthyStrOpt info.code_url) = true := by
    rcases hbad with h | h <;> simp [h, pyTruthyStrOpt]
  have h1 : process_function cfg env w target = (.error (.runtimeError (missingMsg target)), w, []) := by
    simp [process_function, hreg, hcond]
  exact ⟨h1, by simp [entryAt, processJ, h1, pyErrStr]⟩

/-- Concrete run of the invalid-descriptor abort on an empty content hash. -/
theorem invalid_descriptor_aborts_witness :
    process_function cfgW envBad wEmpty "foo" =
      (.error (.runtimeError (missingMsg "foo")), wEmpty, []) :=
  (invalid_descriptor_aborts cfgW envBad wEmpty "foo" infoBad rfl (Or.inl rfl)).1

/-- Claim C8: saving a state record for f and then loading state for the
same f (no injected faults on the state key) succeeds and returns exactly
the record that was saved. -/
theorem save_then_load_round_trip (cfg : Config) (env : Env) (w : S3Store) (f : String) (S : JVal)
    (hput : env.putF (state_key cfg f) = none)
    (hget : env.getF (state_key cfg f) = none) :
    (save_state cfg env w f S).1 = .ok () ∧
    load_last_state cfg env (save_state cfg env w f S).2.1 f = .ok (some S) := by
  have hsave : save_state cfg env w f S =
      (.ok (), s3_put_raw w (state_key cfg f)
        { body := .jsonBody S, contentType := "application/json", metadata := [] },
       [.saveState (state_key cfg f)]) := by
    simp [save_state, s3_put_object, hput]
  refine ⟨by rw [hsave], ?_⟩
  rw [hsave]
  exact load_put_raw_same cfg env w f S "application/json" [] hget

/-- Concrete round trip through the state store. -/
theorem save_then_load_round_trip_witness :
    load_last_state cfgW envW
      (save_state cfgW envW wEmpty "billing-worker" (.jobj [("code_sha", .jstr "abc123")])).2.1
      "billing-worker" = .ok (some (.jobj [("code_sha", .jstr "abc123")])) :=
  (save_then_load_round_trip cfgW envW wEmpty "billing-worker"
    (.jobj [("code_sha", .jstr "abc123")]) rfl rfl).2

theorem resolveStatic_ne_nil (cfg : Config) (h : cfg.TARGETS_FROM_ENV ≠ []) :
    resolveStatic cfg = .ok (cfg.TARGETS_FROM_ENV.map .jstr) := by
  rcases hts : cfg.TARGETS_FROM_ENV with _ | ⟨a, l⟩
  · exact absurd hts h
  · simp [resolveStatic, hts]

theorem resolveStatic_nil (cfg : Config) (h : cfg.TARGETS_FROM_ENV = []) :
    resolveStatic cfg = .error (.runtimeError noTargetsMsg) := by
  simp [resolveStatic, h]

theorem resolveStatic_error (cfg : Config) (e : PyErr) (h : resolveStatic cfg = .error e) :
    e = .runtimeError noTargetsMsg ∧ cfg.TARGETS_FROM_ENV = [] := by
  rcases hts : cfg.TARGETS_FROM_ENV with _ | ⟨a, l⟩
  · rw [resolveStatic_nil cfg hts] at h
    exact ⟨by injection h with h2; exact h2.symm, rfl⟩
  · rw [resolveStatic_ne_nil cfg (by simp [hts])] at h
    exact absurd h (by simp)

/-- Claim C4: target resolution follows strict precedence with no merging:
a CloudTrail-shaped event carrying a truthy functionName makes exactly
that value the single target, regardless of the static list; with no
event-derived target a non-empty static list is returned verbatim; and
the only error resolution ever produces is the no-targets error, raised
exactly when there is no event-derived target and the static list is
empty (so event parsing failures are swallowed, never raised). -/
theorem resolve_targets_precedence (cfg : Config) (event det rp : List (String × JVal)) (fn : JVal) :
    (dictGet event "detail-type" = some (.jstr "AWS API Call via CloudTrail") →
     dictGet event "detail" = some (.jobj det) →
     dictGet det "eventSource" = some (.jstr "lambda.amazonaws.com") →
     dictGet det "requestParameters" = some (.jobj rp) →
     dictGet rp "functionName" = some fn →
     pyTruthy fn = true →
     resolve_targets cfg event = .ok [fn]) ∧
    ((function_name_from_event event = none ∨
      ∃ v, function_name_from_event event = some v ∧ pyTruthy v = false) →
     (cfg.TARGETS_FROM_ENV ≠ [] →
        resolve_targets cfg event = .ok (cfg.TARGETS_FROM_ENV.map .jstr)) ∧
     (cfg.TARGETS_FROM_ENV = [] →
        resolve_targets cfg event = .error (.runtimeError noTargetsMsg))) ∧
    (∀ e, resolve_targets cfg event = .error e →
       e = .runtimeError noTargetsMsg ∧ cfg.TARGETS_FROM_ENV = []) := by
  refine ⟨?_, ?_, ?_⟩
  · intro h1 h2 h3 h4 h5 h6
    have hev : function_name_from_event event = some fn := by
      simp [function_name_from_event, h1, h2, h3, h4, h5]
    simp [resolve_targets, hev, h6]
  · intro hno
    have hres : resolve_targets cfg event = resolveStatic cfg := by
      rcases hno with h | ⟨v, hv, hfv⟩
      · simp [resolve_targets, h]
      · simp [resolve_targets, hv, hfv]
    exact ⟨fun h => by rw [hres, resolveStatic_ne_nil cfg h],
           fun h => by rw [hres, resolveStatic_nil cfg h]⟩
  · intro e he
    unfold resolve_targets at he
    rcases hev : function_name_from_event event with _ | v
    · rw [hev] at he
      exact resolveStatic_error cfg e he
    · rw [hev] at he
      cases htr : pyTruthy v
      · simp only [htr, Bool.false_eq_true, if_false] at he
        exact resolveStatic_error cfg e he
      · simp [htr] at he

/-- Concrete precedence run: the CloudTrail event target wins over a
non-empty static list. -/
theorem resolve_targets_precedence_witness :
    resolve_targets cfgW2 evW = .ok [.jstr "event-fn"] :=
  (resolve_targets_precedence cfgW2 evW
      [("eventSource", .jstr "lambda.amazonaws.com"),
       ("requestParameters", .jobj [("functionName", .jstr "event-fn")])]
      [("functionName", .jstr "event-fn")] (.jstr "event-fn")).1
    rfl rfl rfl rfl rfl rfl

/-- Claim C9: an event matching the CloudTrail notification shape whose
functionName is absent, null or the empty string yields no event-derived
target: resolution falls back to the static list (or raises the
no-targets error when that list is empty), and a resolved target list
never contains an empty identifier, because the env-derived static list
only keeps non-empty stripped entries. -/
theorem event_falsy_function_name_fallback (cfg : Config) (event det rp : List (String × JVal))
    (hdt : dictGet event "detail-type" = some (.jstr "AWS API Call via CloudTrail"))
    (hdet : dictGet event "detail" = some (.jobj det))
    (hes : dictGet det "eventSource" = some (.jstr "lambda.amazonaws.com"))
    (hrp : dictGet det "requestParameters" = some (.jobj rp))
    (hfn : dictGet rp "functionName" = none ∨ dictGet rp "functionName" = some .jnull ∨
           dictGet rp "functionName" = some (.jstr "")) :
    (cfg.TARGETS_FROM_ENV ≠ [] →
       resolve_targets cfg event = .ok (cfg.TARGETS_FROM_ENV.map .jstr)) ∧
    (cfg.TARGETS_FROM_ENV = [] →
       resolve_targets cfg event = .error (.runtimeError noTargetsMsg)) ∧
    (∀ l, resolve_targets cfg event = .ok l → (∀ t ∈ cfg.TARGETS_FROM_ENV, t ≠ "") →
       .jstr "" ∉ l) ∧
    (∀ tf tfs t, t ∈ targets_from_env tf tfs → t ≠ "") := by
  have hres : resolve_targets cfg event = resolveStatic cfg := by
    rcases hfn with h | h | h <;>
      simp [resolve_targets, function_name_from_event, hdt, hdet, hes, hrp, h, pyTruthy]
  refine ⟨fun h => by rw [hres, resolveStatic_ne_nil cfg h],
          fun h => by rw [hres, resolveStatic_nil cfg h], ?_, ?_⟩
  · intro l hl hne
    rw [hres] at hl
    rcases hts : cfg.TARGETS_FROM_ENV with _ | ⟨a, ts⟩
    · rw [resolveStatic_nil cfg hts] at hl
      exact absurd hl (by simp)
    · rw [resolveStatic_ne_nil cfg (by simp [hts])] at hl
      have hl2 : cfg.TARGETS_FROM_ENV.map JVal.jstr = l := by injection hl
      intro hmem
      rw [← hl2, List.mem_map] at hmem
      obtain ⟨t, htm, hteq⟩ := hmem
      exact hne t htm (by injection hteq)
  · intro tf tfs t ht
    unfold targets_from_env at ht
    rw [List.mem_filterMap] at ht
    obtain ⟨s, _, hs⟩ := ht
    by_cases h : s.trim = ""
    · simp [h] at hs
    · simp only [if_neg h] at hs
      have : s.trim = t := by injection hs
      rw [← this]
      exact h

/-- Concrete fallback runs for an empty event functionName: static list
used verbatim when present, no-targets error when absent. -/
theorem event_falsy_function_name_fallback_witness :
    resolve_targets cfgW2 evW9 = .ok [.jstr "alpha", .jstr "beta"] ∧
    resolve_targets cfgW evW9 = .error (.runtimeError noTargetsMsg) := by
  constructor
  · exact (event_falsy_function_name_fallback cfgW2 evW9
      [("eventSource", .jstr "lambda.amazonaws.com"),
       ("requestParameters", .jobj [("functionName", .jstr "")])]
      [("functionName", .jstr "")]
      rfl rfl rfl rfl (Or.inr (Or.inr rfl))).1 (by simp [cfgW2, cfgW])
  · exact (event_falsy_function_name_fallback cfgW evW9
      [("eventSource", .jstr "lambda.amazonaws.com"),
       ("requestParameters", .jobj [("functionName", .jstr "")])]
      [("functionName", .jstr "")]
      rfl rfl rfl rfl (Or.inr (Or.inr rfl))).2.1 rfl

/-- Claim C5 counterexample: the state-store load operation itself does
not normalize a fully-qualified identifier before deriving the storage
key: state saved under the short name foo is found by load("foo") but not
by load of the fully-qualified ARN of foo, which returns absent. -/
theorem load_no_arn_normalization_cex :
    (save_state cfgW envW wEmpty "foo" (.jobj [("code_sha", .jstr "abc999")])).1 = .ok () ∧
    load_last_state cfgW envW
      (save_state cfgW envW wEmpty "foo" (.jobj [("code_sha", .jstr "abc999")])).2.1
      "foo" = .ok (some (.jobj [("code_sha", .jstr "abc999")])) ∧
    load_last_state cfgW envW
      (save_state cfgW envW wEmpty "foo" (.jobj [("code_sha", .jstr "abc999")])).2.1
      "arn:aws:lambda:us-east-1:123:function:foo" = .ok none :=
  ⟨rfl, rfl, rfl⟩

/-- Claim C5 (amended): the short-name normalization is performed by the
per-target pipeline, not by load: for every target with a valid fetched
descriptor, process_function issues its state-store read for the key
derived from shortName of the target (the part after the last colon), and
load keyed by that short name finds state stored under the short-name
key; load itself uses the name it is given verbatim. -/
theorem pipeline_short_name_normalization (cfg : Config) (env : Env) (w : S3Store)
    (target : String) (info : PackageInfo)
    (hreg : fetch_lambda_package_info env target = .ok info)
    (hsha : pyTruthyStrOpt info.code_sha = true)
    (hurl : pyTruthyStrOpt info.code_url = true) :
    (∃ rest, (process_function cfg env w target).2.2 =
       .loadState (state_key cfg (shortName target)) :: rest) ∧
    (∀ S ct md vid vs,
       env.getF (state_key cfg (shortName target)) = none →
       lookupKey w.objects (state_key cfg (shortName target)) =
         some ({ data := { body := .jsonBody S, contentType := ct, metadata := md },
                 versionId := vid } :: vs) →
       load_last_state cfg env w (shortName target) = .ok (some S)) := by
  have hcond : (!pyTruthyStrOpt info.code_sha || !pyTruthyStrOpt info.code_url) = false := by
    simp [hsha, hurl]
  constructor
  · unfold process_function
    rw [hreg]
    simp only [hcond, Bool.false_eq_true, if_false]
    split
    all_goals try split
    all_goals try split
    all_goals try split
    all_goals try split
    all_goals try split
    all_goals exact ⟨_, rfl⟩
  · intro S ct md vid vs hget hlook
    simp [load_last_state, s3_get_object, hget, hlook]

/-- Concrete run: for an ARN target the pipeline reads the short-name
state key. -/
theorem pipeline_short_name_normalization_witness :
    ∃ rest, (process_function cfgW envW wEmpty "arn:aws:lambda:us-east-1:123:function:foo").2.2 =
      .loadState "lambda-code-backups/.state/foo.json" :: rest :=
  (pipeline_short_name_normalization cfgW envW wEmpty
    "arn:aws:lambda:us-east-1:123:function:foo" infoW rfl rfl rfl).1

theorem run_targets_cons (cfg : Config) (env : Env) (t : JVal) (ts : List JVal) (w : S3Store) :
    run_targets cfg env (t :: ts) w =
      (entryAt cfg env w t :: (run_targets cfg env ts (processJ cfg env w t).2.1).1,
       (run_targets cfg env ts (processJ cfg env w t).2.1).2.1,
       (processJ cfg env w t).2.2 ++ (run_targets cfg env ts (processJ cfg env w t).2.1).2.2) := rfl

theorem process_function_ok_function (cfg : Config) (env : Env) (w : S3Store) (s : String)
    (e : ResultEntry) (h : (process_function cfg env w s).1 = .ok e) :
    e.function = .jstr s := by
  unfold process_function at h
  split at h
  · simp at h
  · split at h
    · simp at h
    · split at h
      all_goals try split at h
      all_goals try split at h
      all_goals try split at h
      all_goals try split at h
      all_goals try split at h
      all_goals simp at h
      all_goals rw [← h]

theorem entryAt_function (cfg : Config) (env : Env) (w : S3Store) (t : JVal) :
    (entryAt cfg env w t).function = t := by
  unfold entryAt processJ
  cases t with
  | jstr s =>
    rcases hp : (process_function cfg env w s).1 with er | e
    · simp
    · simpa using process_function_ok_function cfg env w s e hp
  | jnull => rfl
  | jbool b => rfl
  | jnum n => rfl
  | jarr xs => rfl
  | jobj kvs => rfl

theorem run_targets_length (cfg : Config) (env : Env) :
    ∀ (ts : List JVal) (w : S3Store), (run_targets cfg env ts w).1.length = ts.length := by
  intro ts
  induction ts with
  | nil => intro w; rfl
  | cons t ts ih =>
    intro w
    rw [run_targets_cons]
    simp [ih]

theorem run_targets_get (cfg : Config) (env : Env) :
    ∀ (ts : List JVal) (w : S3Store) (i : Nat)
      (h1 : i < (run_targets cfg env ts w).1.length) (h2 : i < ts.length),
      (run_targets cfg env ts w).1.get ⟨i, h1⟩ =
        entryAt cfg env (worldAt cfg env ts w i) (ts.get ⟨i, h2⟩) := by
  intro ts
  induction ts with
  | nil => intro w i h1 h2; exact absurd h2 (by simp)
  | cons t ts ih =>
    intro w i h1 h2
    cases i with
    | zero => rfl
    | succ i =>
      exact ih (processJ cfg env w t).2.1 i
        (Nat.lt_of_succ_lt_succ (by simpa [run_targets_cons] using h1))
        (Nat.lt_of_succ_lt_succ h2)

/-- Claim C3: once versioning is ensured and targets are resolved, the
handler processes the targets strictly in order, converts each per-target
exception into an error entry via the loop body, continues with the
remaining targets, and returns ok with exactly one result entry per
resolved target in resolution order, whose function field is that target;
per-target failures never make the invocation itself raise. -/
theorem lambda_handler_partial_failure_isolation (cfg : Config) (env : Env) (w : S3Store)
    (event : List (String × JVal)) (w0 : S3Store) (targets : List JVal)
    (hv : ensure_bucket_versioning env w = .ok w0)
    (hr : resolve_targets cfg event = .ok targets) :
    lambda_handler cfg env w event =
      (.ok { results := (run_targets cfg env targets w0).1 },
       (run_targets cfg env targets w0).2.1,
       (run_targets cfg env targets w0).2.2) ∧
    (run_targets cfg env targets w0).1.length = targets.length ∧
    (∀ i (h1 : i < (run_targets cfg env targets w0).1.length) (h2 : i < targets.length),
      (run_targets cfg env targets w0).1.get ⟨i, h1⟩ =
        entryAt cfg env (worldAt cfg env targets w0 i) (targets.get ⟨i, h2⟩)) ∧
    (∀ i (h1 : i < (run_targets cfg env targets w0).1.length) (h2 : i < targets.length),
      ((run_targets cfg env targets w0).1.get ⟨i, h1⟩).function = targets.get ⟨i, h2⟩) := by
  refine ⟨by simp [lambda_handler, hv, hr], run_targets_length cfg env targets w0,
    run_targets_get cfg env targets w0, fun i h1 h2 => ?_⟩
  rw [run_targets_get cfg env targets w0 i h1 h2]
  exact entryAt_function cfg env (worldAt cfg env targets w0 i) (targets.get ⟨i, h2⟩)

/-- Concrete partial-failure run: three static targets, the registry
fails for the middle one; the handler still returns ok with three
entries aligned with the targets. -/
theorem lambda_handler_partial_failure_isolation_witness :
    (lambda_handler cfgW3 envW3 wEmpty []).1 =
      .ok { results := (run_targets cfgW3 envW3 [.jstr "alpha", .jstr "beta", .jstr "gamma"] wEmpty).1 } ∧
    (run_targets cfgW3 envW3 [.jstr "alpha", .jstr "beta", .jstr "gamma"] wEmpty).1.length = 3 := by
  have h := lambda_handler_partial_failure_isolation cfgW3 envW3 wEmpty [] wEmpty
    [.jstr "alpha", .jstr "beta", .jstr "gamma"] rfl rfl
  exact ⟨by rw [h.1], h.2.1⟩

theorem compare_sha_eq_of_get (d : List (String × JVal)) (cs : String)
    (h : dictGet d "code_sha" = some (.jstr cs)) :
    compare_sha (some (.jobj d)) cs = .ok false := by
  rw [compare_sha_jobj, h]
  simp

theorem process_function_unchanged (cfg : Config) (env : Env) (w : S3Store) (target : String)
    (info : PackageInfo) (ls : Option JVal)
    (hreg : fetch_lambda_package_info env target = .ok info)
    (hcond : (!pyTruthyStrOpt info.code_sha || !pyTruthyStrOpt info.code_url) = false)
    (hload : load_last_state cfg env w (shortName target) = .ok ls)
    (hcmp : compare_sha ls (info.code_sha.getD "") = .ok false) :
    process_function cfg env w target =
      (.ok { function := .jstr target, outcome := .unchanged }, w,
       [.loadState (state_key cfg (shortName target))]) := by
  simp [process_function, hreg, hcond, hload, hcmp]

theorem s3_put_object_ok_inv (env : Env) (w : S3Store) (key : String) (d : ObjData)
    (w1 : S3Store) (h : s3_put_object env w key d = .ok w1) :
    env.putF key = none ∧ w1 = s3_put_raw w key d := by
  unfold s3_put_object at h
  split at h
  · simp at h
  · rename_i hp
    exact ⟨hp, by injection h with h2; exact h2.symm⟩

theorem save_state_ok_inv (cfg : Config) (env : Env) (w : S3Store) (fn : String) (st : JVal)
    (u : Unit) (h : (save_state cfg env w fn st).1 = .ok u) :
    env.putF (state_key cfg fn) = none ∧
    (save_state cfg env w fn st).2.1 =
      s3_put_raw w (state_key cfg fn)
        { body := .jsonBody st, contentType := "application/json", metadata := [] } := by
  unfold save_state at h ⊢
  split at h
  · simp at h
  · rename_i w1 hp
    obtain ⟨hpf, hw1⟩ := s3_put_object_ok_inv env w _ _ w1 hp
    exact ⟨hpf, by simpa using hw1⟩

theorem upload_zip_ok_inv (cfg : Config) (env : Env) (w : S3Store) (fn : String)
    (blob : Bytes) (info : PackageInfo) (ui : UploadInfo)
    (h : (upload_zip cfg env w fn blob info).1 = .ok ui) :
    (upload_zip cfg env w fn blob info).2.1 =
      s3_put_raw w (artifact_key cfg fn)
        { body := .zipBody blob, contentType := "application/zip", metadata := zipMetadata info } := by
  unfold upload_zip at h ⊢
  split at h
  · simp at h
  · rename_i w1 hp
    obtain ⟨hpf, hw1⟩ := s3_put_object_ok_inv env w _ _ w1 hp
    split
    · simpa using hw1
    · simpa using hw1

theorem process_function_ok_inv (cfg : Config) (env : Env) (w : S3Store) (target : String)
    (info : PackageInfo)
    (hreg : fetch_lambda_package_info env target = .ok info)
    (hcond : (!pyTruthyStrOpt info.code_sha || !pyTruthyStrOpt info.code_url) = false)
    (r : ResultEntry) (w1 : S3Store) (t1 : List Eff)
    (h : process_function cfg env w target = (.ok r, w1, t1)) :
    (∃ ls, load_last_state cfg env w (shortName target) = .ok ls ∧
       compare_sha ls (info.code_sha.getD "") = .ok false ∧ w1 = w) ∨
    (∃ ls blob ui,
       load_last_state cfg env w (shortName target) = .ok ls ∧
       compare_sha ls (info.code_sha.getD "") = .ok true ∧
       download_bytes env (info.code_url.getD "") = .ok blob ∧
       (upload_zip cfg env w (shortName target) blob info).1 = .ok ui ∧
       (save_state cfg env (upload_zip cfg env w (shortName target) blob info).2.1
          (shortName target) (stateRecord (info.code_sha.getD "") info ui)).1 = .ok () ∧
       w1 = (save_state cfg env (upload_zip cfg env w (shortName target) blob info).2.1
          (shortName target) (stateRecord (info.code_sha.getD "") info ui)).2.1) := by
  unfold process_function at h
  split at h
  · rename_i e2 hfetch
    rw [hreg] at hfetch
    simp at hfetch
  · rename_i info2 hfetch
    rw [hreg] at hfetch
    injection hfetch with hinfo
    subst hinfo
    simp only [hcond, Bool.false_eq_true, if_false] at h
    split at h
    · simp at h
    · rename_i ls hload
      split at h
      · simp at h
      · rename_i changed hcmp
        split at h
        · rename_i hch
          have hch2 : changed = false := by simpa using hch
          subst hch2
          left
          refine ⟨ls, hload, hcmp, ?_⟩
          simp only [Prod.mk.injEq] at h
          exact h.2.1.symm
        · rename_i hch
          have hch2 : changed = true := by simpa using hch
          subst hch2
          split at h
          · simp at h
          · rename_i blob hdl
            split at h
            · simp at h
            · rename_i ui hup
              split at h
              · simp at h
              · rename_i u2 hsv
                right
                refine ⟨ls, blob, ui, hload, hcmp, hdl, hup, ?_, ?_⟩
                · cases u2
                  exact hsv
                · simp only [Prod.mk.injEq] at h
                  exact h.2.1.symm

/-- Claim C2: when the fetched descriptor is valid and its content hash
equals the hash stored in the loaded state, process_function returns the
unchanged entry for the target, leaves the store untouched, and its trace
holds only the state read (no download, no upload, no state write);
consequently running the pipeline twice with an unchanged package (and no
injected read fault on the state key) yields the unchanged entry on the
second run, with no writes and an unchanged store. -/
theorem process_unchanged_frame_and_idempotent (cfg : Config) (env : Env) (w : S3Store)
    (target : String) (info : PackageInfo) (s : String)
    (hreg : fetch_lambda_package_info env target = .ok info)
    (hsha : info.code_sha = some s) (hs : s ≠ "")
    (hurl : pyTruthyStrOpt info.code_url = true) :
    (∀ d, load_last_state cfg env w (shortName target) = .ok (some (.jobj d)) →
       dictGet d "code_sha" = some (.jstr s) →
       process_function cfg env w target =
         (.ok { function := .jstr target, outcome := .unchanged }, w,
          [.loadState (state_key cfg (shortName target))])) ∧
    (env.getF (state_key cfg (shortName target)) = none →
     ∀ r w1 t1, process_function cfg env w target = (.ok r, w1, t1) →
       process_function cfg env w1 target =
         (.ok { function := .jstr target, outcome := .unchanged }, w1,
          [.loadState (state_key cfg (shortName target))])) := by
  have hst : pyTruthyStrOpt info.code_sha = true := by rw [hsha]; exact pyTruthyStrOpt_some hs
  have hcond : (!pyTruthyStrOpt info.code_sha || !pyTruthyStrOpt info.code_url) = false := by
    simp [hst, hurl]
  have hgd : info.code_sha.getD "" = s := by rw [hsha]; rfl
  constructor
  · intro d hload hsha2
    have hcmp : compare_sha (some (.jobj d)) (info.code_sha.getD "") = .ok false := by
      rw [hgd]
      exact compare_sha_eq_of_get d s hsha2
    exact process_function_unchanged cfg env w target info (some (.jobj d)) hreg hcond hload hcmp
  · intro hget r w1 t1 hrun
    rcases process_function_ok_inv cfg env w target info hreg hcond r w1 t1 hrun with
      ⟨ls, hload, hcmp, hw⟩ | ⟨ls, blob, ui, hload, hcmp, hdl, hup, hsv, hw⟩
    · subst hw
      exact process_function_unchanged cfg env w1 target info ls hreg hcond hload hcmp
    · have hsave := save_state_ok_inv cfg env
        (upload_zip cfg env w (shortName target) blob info).2.1 (shortName target)
        (stateRecord (info.code_sha.getD "") info ui) () hsv
      have hload2 : load_last_state cfg env w1 (shortName target) =
          .ok (some (stateRecord (info.code_sha.getD "") info ui)) := by
        rw [hw, hsave.2]
        exact load_put_raw_same cfg env _ (shortName target) _ "application/json" [] hget
      exact process_function_unchanged cfg env w1 target info _ hreg hcond hload2
        (compare_sha_stateRecord (info.code_sha.getD "") info ui)

/-- Concrete idempotence run: a first run on the empty store backs up foo;
an immediate second run returns the unchanged entry, leaves the store of
the first run untouched and performs only the state read. -/
theorem process_unchanged_frame_and_idempotent_witness :
    process_function cfgW envW (process_function cfgW envW wEmpty "foo").2.1 "foo" =
      (.ok { function := .jstr "foo", outcome := .unchanged },
       (process_function cfgW envW wEmpty "foo").2.1,
       [.loadState "lambda-code-backups/.state/foo.json"]) :=
  (process_unchanged_frame_and_idempotent cfgW envW wEmpty "foo" infoW "abc123"
    rfl rfl (by decide) rfl).2 rfl
    { function := .jstr "foo",
      outcome := .changed
        { bucket := "bkt", key := "lambda-code-backups/foo.zip", version_id := some "v0" }
        "abc123" }
    (process_function cfgW envW wEmpty "foo").2.1
    [.loadState "lambda-code-backups/.state/foo.json", .download "https://pkg/abc123.zip",
     .uploadZip "lambda-code-backups/foo.zip", .saveState "lambda-code-backups/.state/foo.json"]
    rfl

theorem upload_zip_eq (cfg : Config) (env : Env) (w : S3Store) (fn : String)
    (blob : Bytes) (info : PackageInfo)
    (hput : env.putF (artifact_key cfg fn) = none)
    (hhead : env.headF (artifact_key cfg fn) = none) :
    upload_zip cfg env w fn blob info =
      (.ok { bucket := cfg.DEST_BUCKET, key := artifact_key cfg fn,
             version_id := if w.versioningEnabled then some ("v" ++ toString w.nextVersionId) else none },
       s3_put_raw w (artifact_key cfg fn)
         { body := .zipBody blob, contentType := "application/zip", metadata := zipMetadata info },
       [.uploadZip (artifact_key cfg fn)]) := by
  simp [upload_zip, s3_put_object, hput, s3_head_object, hhead, lookupKey_put_raw_self]

theorem save_state_fail_eq (cfg : Config) (env : Env) (w : S3Store) (fn : String) (st : JVal)
    (e : ClientError) (hput : env.putF (state_key cfg fn) = some e) :
    save_state cfg env w fn st = (.error (.clientError e), w, [.saveState (state_key cfg fn)]) := by
  simp [save_state, s3_put_object, hput]

theorem process_changed_save_fail (cfg : Config) (env : Env) (w : S3Store) (target : String)
    (info : PackageInfo) (u : String) (blob : Bytes) (e : ClientError) (ls : Option JVal)
    (hreg : fetch_lambda_package_info env target = .ok info)
    (hcond : (!pyTruthyStrOpt info.code_sha || !pyTruthyStrOpt info.code_url) = false)
    (hcu : info.code_url.getD "" = u)
    (hload : load_last_state cfg env w (shortName target) = .ok ls)
    (hcmp : compare_sha ls (info.code_sha.getD "") = .ok true)
    (hdl : env.download u = .ok blob)
    (hputA : env.putF (artifact_key cfg (shortName target)) = none)
    (hheadA : env.headF (artifact_key cfg (shortName target)) = none)
    (hputS : env.putF (state_key cfg (shortName target)) = some e) :
    process_function cfg env w target =
      (.error (.clientError e),
       s3_put_raw w (artifact_key cfg (shortName target))
         { body := .zipBody blob, contentType := "application/zip", metadata := zipMetadata info },
       [.loadState (state_key cfg (shortName target)), .download u,
        .uploadZip (artifact_key cfg (shortName target)),
        .saveState (state_key cfg (shortName target))]) := by
  have hup := upload_zip_eq cfg env w (shortName target) blob info hputA hheadA
  have hsv := save_state_fail_eq cfg env
    (s3_put_raw w (artifact_key cfg (shortName target))
      { body := .zipBody blob, contentType := "application/zip", metadata := zipMetadata info })
    (shortName target)
    (stateRecord (info.code_sha.getD "") info
      { bucket := cfg.DEST_BUCKET, key := artifact_key cfg (shortName target),
        version_id := if w.versioningEnabled then some ("v" ++ toString w.nextVersionId) else none })
    e hputS
  simp [process_function, hreg, hcond, hload, hcmp, download_bytes, hcu, hdl, hup, hsv]

/-- Claim C10: on the changed path the artifact upload strictly precedes
the state write; when the state write fails after a successful upload the
target raises the ClientError (an error entry at the loop), the newly
uploaded artifact version is in place at the head of the artifact key
(with all previous versions retained under versioning), the persisted
state record is unchanged, and the next run on the resulting store again
detects a change, re-downloads and re-uploads. -/
theorem upload_precedes_save_failure_nonatomic (cfg : Config) (env : Env) (w : S3Store)
    (target : String) (info : PackageInfo) (s u : String) (blob : Bytes)
    (e : ClientError) (ls : Option JVal)
    (hreg : fetch_lambda_package_info env target = .ok info)
    (hsha : info.code_sha = some s) (hs : s ≠ "")
    (hurl : info.code_url = some u) (hu : u ≠ "")
    (hload : load_last_state cfg env w (shortName target) = .ok ls)
    (hcmp : compare_sha ls s = .ok true)
    (hdl : env.download u = .ok blob)
    (hputA : env.putF (artifact_key cfg (shortName target)) = none)
    (hheadA : env.headF (artifact_key cfg (shortName target)) = none)
    (hputS : env.putF (state_key cfg (shortName target)) = some e) :
    process_function cfg env w target =
      (.error (.clientError e),
       s3_put_raw w (artifact_key cfg (shortName target))
         { body := .zipBody blob, contentType := "application/zip", metadata := zipMetadata info },
       [.loadState (state_key cfg (shortName target)), .download u,
        .uploadZip (artifact_key cfg (shortName target)),
        .saveState (state_key cfg (shortName target))]) ∧
    entryAt cfg env w (.jstr target) =
      { function := .jstr target, outcome := .error e.msg } ∧
    lookupKey (process_function cfg env w target).2.1.objects (artifact_key cfg (shortName target)) =
      some ({ data := { body := .zipBody blob, contentType := "application/zip",
                        metadata := zipMetadata info },
              versionId := if w.versioningEnabled then some ("v" ++ toString w.nextVersionId) else none } ::
            (if w.versioningEnabled then
               (lookupKey w.objects (artifact_key cfg (shortName target))).getD [] else [])) ∧
    lookupKey (process_function cfg env w target).2.1.objects (state_key cfg (shortName target)) =
      lookupKey w.objects (state_key cfg (shortName target)) ∧
    (process_function cfg env (process_function cfg env w target).2.1 target).2.2 =
      [.loadState (state_key cfg (shortName target)), .download u,
       .uploadZip (artifact_key cfg (shortName target)),
       .saveState (state_key cfg (shortName target))] ∧
    (process_function cfg env (process_function cfg env w target).2.1 target).1 =
      .error (.clientError e) := by
  have hst : pyTruthyStrOpt info.code_sha = true := by rw [hsha]; exact pyTruthyStrOpt_some hs
  have hut : pyTruthyStrOpt info.code_url = true := by rw [hurl]; exact pyTruthyStrOpt_some hu
  have hcond : (!pyTruthyStrOpt info.code_sha || !pyTruthyStrOpt info.code_url) = false := by
    simp [hst, hut]
  have hgd : info.code_sha.getD "" = s := by rw [hsha]; rfl
  have hcu : info.code_url.getD "" = u := by rw [hurl]; rfl
  have hcmp2 : compare_sha ls (info.code_sha.getD "") = .ok true := by rw [hgd]; exact hcmp
  have h1 := process_changed_save_fail cfg env w target info u blob e ls
    hreg hcond hcu hload hcmp2 hdl hputA hheadA hputS
  have hne : artifact_key cfg (shortName target) ≠ state_key cfg (shortName target) :=
    fun hh => state_key_ne_artifact_key cfg cfg (shortName target) (shortName target) hh.symm
  have hstate : lookupKey (process_function cfg env w target).2.1.objects
      (state_key cfg (shortName target)) =
      lookupKey w.objects (state_key cfg (shortName target)) := by
    rw [h1]
    exact lookupKey_put_raw_ne w (artifact_key cfg (shortName target))
      (state_key cfg (shortName target)) _ hne
  have hload2 : load_last_state cfg env (process_function cfg env w target).2.1
      (shortName target) = .ok ls :=
    (load_congr cfg env (process_function cfg env w target).2.1 w (shortName target) hstate).trans
      hload
  have h2 := process_changed_save_fail cfg env (process_function cfg env w target).2.1 target
    info u blob e ls hreg hcond hcu hload2 hcmp2 hdl hputA hheadA hputS
  refine ⟨h1, ?_, ?_, hstate, by rw [h2], by rw [h2]⟩
  · simp [entryAt, processJ, h1, pyErrStr]
  · rw [h1]
    exact lookupKey_put_raw_self w (artifact_key cfg (shortName target)) _

/-- Concrete non-atomic failure: on the empty store, with the state write
for foo failing, processing foo uploads the artifact and then raises the
injected error, leaving the new artifact version in the store. -/
theorem upload_precedes_save_failure_nonatomic_witness :
    process_function cfgW envW10 wEmpty "foo" =
      (.error (.clientError errW),
       s3_put_raw wEmpty "lambda-code-backups/foo.zip"
         { body := .zipBody [80, 75], contentType := "application/zip",
           metadata := zipMetadata infoW },
       [.loadState "lambda-code-backups/.state/foo.json", .download "https://pkg/abc123.zip",
        .uploadZip "lambda-code-backups/foo.zip",
        .saveState "lambda-code-backups/.state/foo.json"]) :=
  (upload_precedes_save_failure_nonatomic cfgW envW10 wEmpty "foo" infoW "abc123"
    "https://pkg/abc123.zip" [80, 75] errW none
    rfl rfl (by decide) rfl (by decide) rfl rfl rfl rfl rfl rfl).1

/-- Concrete evaluations of the change detector: present-and-equal hash
gives false, absent state gives true. -/
theorem compare_sha_false_iff_match_witness :
    compare_sha (some (.jobj [("code_sha", .jstr "abc123")])) "abc123" = .ok false ∧
    compare_sha none "abc123" = .ok true := by
  constructor
  · exact (compare_sha_false_iff_match (some [("code_sha", .jstr "abc123")]) "abc123").1.mpr
      ⟨[("code_sha", .jstr "abc123")], rfl, rfl⟩
  · exact (compare_sha_false_iff_match none "abc123").2.mpr (by simp)
